import Mathlib

/-!
# Verification of the react-task-manager repository

Shallow embedding of the task-manager application:

* the Express server (`server.js`, in-memory `tasks` collection and its
  REST route handlers),
* the client state layer (`src/context/TaskContext.jsx`), and
* the client derivations (`src/components/TaskBoard.jsx`).

Modelling conventions:

* Instants (ISO timestamp strings produced by `new Date().toISOString()`
  and date strings such as `'2025-01-20'`) are modelled as natural
  numbers; `new Date(s) < new Date()` becomes `s < now`, with the current
  clock reading passed explicitly as a `now` parameter wherever the
  source calls `new Date()`.
* A JSON request body with optional top-level fields is a structure of
  `Option` fields; `none` models an absent key.
* JavaScript truthiness on strings (`if (title)`, `if (status)`) is the
  test "present and non-empty".
* An HTTP response is an `ApiResult`: `ok code value` for a 2xx response
  with a JSON value, `err code` for a 4xx response.
-/

set_option autoImplicit false

namespace TaskManager

/-- Lower-casing of a JavaScript string (`s.toLowerCase()`), modelled
character by character. -/
def jsToLower (s : String) : String :=
  ⟨s.data.map Char.toLower⟩

/-- Truth of `leadsWith s p`: true when the character list `p` occurs at the very
start of `s` (helper for the substring test). -/
def leadsWith : List Char → List Char → Bool
  | _, [] => true
  | [], _ :: _ => false
  | c :: cs, d :: ds => c == d && leadsWith cs ds

/-- Truth of `containsSub s sub`: true when `sub` occurs contiguously somewhere in
`s` (helper for the substring test). -/
def containsSub : List Char → List Char → Bool
  | [], sub => leadsWith [] sub
  | c :: t, sub => leadsWith (c :: t) sub || containsSub t sub

/-- JavaScript `s.includes(sub)`: `sub` is a contiguous substring of `s`. -/
def jsIncludes (s sub : String) : Bool :=
  containsSub s.data sub.data

/-- JavaScript truthiness of an optional string field: an absent key and
the empty string are falsy. -/
def jsTruthy (o : Option String) : Bool :=
  match o with
  | none => false
  | some s => !(s == "")

/-- A subtask record, as stored in a task's `subtasks` array
(`server.js`). -/
structure Subtask where
  id : String
  title : String
  completed : Bool
  deriving Repr, DecidableEq

/-- A task record, as stored in the server's in-memory `tasks` array
(`server.js`).  `dueDate` is `none` when the stored value is absent or
falsy; timestamps are modelled as naturals (see the file header). -/
structure Task where
  id : String
  title : String
  description : String
  status : String
  priority : String
  dueDate : Option Nat
  createdAt : Nat
  updatedAt : Nat
  subtasks : List Subtask
  tags : List String
  assignee : String
  deriving Repr, DecidableEq

/-- An HTTP response: a 2xx status with a JSON payload, or a 4xx status. -/
inductive ApiResult (α : Type) where
  | ok (code : Nat) (value : α)
  | err (code : Nat)
  deriving Repr, DecidableEq

/-! ## GET /api/tasks — list with filters (`server.js` lines 62–83) -/

/-- The `status` filter step: `if (status) filteredTasks =
filteredTasks.filter(task => task.status === status)`. -/
def applyStatusFilter (status : Option String) (l : List Task) : List Task :=
  if jsTruthy status then l.filter (fun t => t.status == status.getD "") else l

/-- The `priority` filter step of the GET handler. -/
def applyPriorityFilter (priority : Option String) (l : List Task) : List Task :=
  if jsTruthy priority then l.filter (fun t => t.priority == priority.getD "") else l

/-- The server's text-search predicate: the search term is a
case-insensitive substring of the task's title OR of its description. -/
def serverSearchMatch (search : String) (t : Task) : Bool :=
  jsIncludes (jsToLower t.title) (jsToLower search) ||
  jsIncludes (jsToLower t.description) (jsToLower search)

/-- The `search` filter step of the GET handler. -/
def applySearchFilter (search : Option String) (l : List Task) : List Task :=
  if jsTruthy search then l.filter (serverSearchMatch (search.getD "")) else l

/-- Handler of `GET /api/tasks?status&priority&search`: the three filter steps applied
in sequence to a copy of the collection. -/
def getTasksRoute (tasks : List Task) (status priority search : Option String) :
    List Task :=
  applySearchFilter search (applyPriorityFilter priority (applyStatusFilter status tasks))

/-! ## POST /api/tasks — create (`server.js` lines 95–118) -/

/-- Request body of `POST /api/tasks`; `none` models an absent key.
`dueDate`'s inner option mirrors the stored field. -/
structure CreateTaskBody where
  title : Option String := none
  description : Option String := none
  priority : Option String := none
  dueDate : Option (Option Nat) := none
  tags : Option (List String) := none
  assignee : Option String := none
  deriving Repr, DecidableEq

/-- Handler of `POST /api/tasks`: rejects a falsy title with 400, otherwise builds the
new task (status `'todo'`, destructuring defaults `priority = 'medium'`,
`tags = []`, `description || ''`, `assignee || ''`, empty subtask list,
both timestamps set to now, the freshly generated id) and pushes it.
Returns the response and the new collection. -/
def postTaskRoute (tasks : List Task) (body : CreateTaskBody) (newId : String)
    (now : Nat) : ApiResult Task × List Task :=
  if !(jsTruthy body.title) then (.err 400, tasks)
  else
    let newTask : Task :=
      { id := newId
        title := body.title.getD ""
        description := body.description.getD ""
        status := "todo"
        priority := body.priority.getD "medium"
        dueDate := body.dueDate.getD none
        createdAt := now
        updatedAt := now
        subtasks := []
        tags := body.tags.getD []
        assignee := body.assignee.getD "" }
    (.ok 201 newTask, tasks ++ [newTask])

/-! ## PUT /api/tasks/:id — shallow-merge update (`server.js` lines 121–135) -/

/-- Request body of `PUT /api/tasks/:id`: an arbitrary partial task record;
`none` models an absent top-level key.  Any field, `id` and `status`
included, may appear. -/
structure TaskPatch where
  id : Option String := none
  title : Option String := none
  description : Option String := none
  status : Option String := none
  priority : Option String := none
  dueDate : Option (Option Nat) := none
  createdAt : Option Nat := none
  updatedAt : Option Nat := none
  subtasks : Option (List Subtask) := none
  tags : Option (List String) := none
  assignee : Option String := none
  deriving Repr, DecidableEq

/-- JavaScript spread merge `{...t, ...p}`: every top-level key present in
`p` overwrites `t`'s value, every absent key keeps it. -/
def jsMergeTask (t : Task) (p : TaskPatch) : Task :=
  { id := p.id.getD t.id
    title := p.title.getD t.title
    description := p.description.getD t.description
    status := p.status.getD t.status
    priority := p.priority.getD t.priority
    dueDate := p.dueDate.getD t.dueDate
    createdAt := p.createdAt.getD t.createdAt
    updatedAt := p.updatedAt.getD t.updatedAt
    subtasks := p.subtasks.getD t.subtasks
    tags := p.tags.getD t.tags
    assignee := p.assignee.getD t.assignee }

/-- Handler of `PUT /api/tasks/:id`: 404 when no task has the id, otherwise replaces
the record at the found index by `{...tasks[taskIndex], ...req.body,
updatedAt: new Date().toISOString()}`. -/
def putTaskRoute (tasks : List Task) (tid : String) (body : TaskPatch)
    (now : Nat) : ApiResult Task × List Task :=
  match tasks.findIdx? (fun t => t.id == tid) with
  | none => (.err 404, tasks)
  | some i =>
    match tasks[i]? with
    | none => (.err 404, tasks)
    | some old =>
      let updatedTask := { jsMergeTask old body with updatedAt := now }
      (.ok 200 updatedTask, tasks.set i updatedTask)

/-! ## DELETE /api/tasks/:id (`server.js` lines 138–146) -/

/-- Handler of `DELETE /api/tasks/:id`: 404 when no task has the id, otherwise splices
the record out. -/
def deleteTaskRoute (tasks : List Task) (tid : String) :
    ApiResult Unit × List Task :=
  match tasks.findIdx? (fun t => t.id == tid) with
  | none => (.err 404, tasks)
  | some i => (.ok 204 (), tasks.eraseIdx i)

/-! ## Subtask routes (`server.js` lines 149–209) -/

/-- Request body of the subtask routes: the handlers read `title` only, but
a client may also send `completed`, `id`, or anything else; the extra
fields here let that be said. -/
structure SubtaskBody where
  title : Option String := none
  completed : Option Bool := none
  id : Option String := none
  deriving Repr, DecidableEq

/-- JavaScript spread merge `{...st, ...p}` for a subtask record. -/
def jsMergeSubtask (st : Subtask) (p : SubtaskBody) : Subtask :=
  { id := p.id.getD st.id
    title := p.title.getD st.title
    completed := p.completed.getD st.completed }

/-- Handler of `POST /api/tasks/:id/subtasks`: 404 when the task is missing, 400 when
the body's title is falsy; otherwise builds `{id: uuidv4(), title,
completed: false}` from the body's title alone, pushes it onto the parent
task's subtask list and refreshes the parent's `updatedAt`. -/
def postSubtaskRoute (tasks : List Task) (tid : String) (body : SubtaskBody)
    (newId : String) (now : Nat) : ApiResult Subtask × List Task :=
  match tasks.findIdx? (fun t => t.id == tid) with
  | none => (.err 404, tasks)
  | some i =>
    match tasks[i]? with
    | none => (.err 404, tasks)
    | some task =>
      if !(jsTruthy body.title) then (.err 400, tasks)
      else
        let newSubtask : Subtask :=
          { id := newId, title := body.title.getD "", completed := false }
        let task2 :=
          { task with subtasks := task.subtasks ++ [newSubtask], updatedAt := now }
        (.ok 201 newSubtask, tasks.set i task2)

/-- Handler of `PUT /api/tasks/:taskId/subtasks/:subtaskId`: 404 at the missing level
(task first, then subtask); otherwise shallow-merges the body onto the
subtask at the found index and refreshes the parent's `updatedAt`. -/
def putSubtaskRoute (tasks : List Task) (tid sid : String) (body : SubtaskBody)
    (now : Nat) : ApiResult Subtask × List Task :=
  match tasks.findIdx? (fun t => t.id == tid) with
  | none => (.err 404, tasks)
  | some i =>
    match tasks[i]? with
    | none => (.err 404, tasks)
    | some task =>
      match task.subtasks.findIdx? (fun st => st.id == sid) with
      | none => (.err 404, tasks)
      | some j =>
        match task.subtasks[j]? with
        | none => (.err 404, tasks)
        | some oldSub =>
          let merged := jsMergeSubtask oldSub body
          let task2 :=
            { task with subtasks := task.subtasks.set j merged, updatedAt := now }
          (.ok 200 merged, tasks.set i task2)

/-- Handler of `DELETE /api/tasks/:taskId/subtasks/:subtaskId`: 404 at the missing
level; otherwise splices the subtask out and refreshes the parent's
`updatedAt`. -/
def deleteSubtaskRoute (tasks : List Task) (tid sid : String) (now : Nat) :
    ApiResult Unit × List Task :=
  match tasks.findIdx? (fun t => t.id == tid) with
  | none => (.err 404, tasks)
  | some i =>
    match tasks[i]? with
    | none => (.err 404, tasks)
    | some task =>
      match task.subtasks.findIdx? (fun st => st.id == sid) with
      | none => (.err 404, tasks)
      | some j =>
        let task2 :=
          { task with subtasks := task.subtasks.eraseIdx j, updatedAt := now }
        (.ok 204 (), tasks.set i task2)

/-! ## Seed data and reachable server states (`server.js` lines 13–47)

Date strings are encoded as naturals in `yyyymmdd` form; the server-start
timestamps (`new Date().toISOString()` at module load) are a parameter. -/

/-- The two tasks the server starts with. -/
def initialTasks (t0 : Nat) : List Task :=
  [ { id := "1"
      title := "Learn React Hooks"
      description := "Study useEffect, useState, and custom hooks"
      status := "in-progress"
      priority := "high"
      dueDate := some 20250120
      createdAt := t0
      updatedAt := t0
      subtasks :=
        [ { id := "sub1", title := "Read useEffect documentation", completed := true }
        , { id := "sub2", title := "Practice custom hooks", completed := false } ]
      tags := ["react", "learning"]
      assignee := "John Doe" }
  , { id := "2"
      title := "Build Task Manager"
      description := "Create a comprehensive task management application"
      status := "todo"
      priority := "medium"
      dueDate := some 20250125
      createdAt := t0
      updatedAt := t0
      subtasks :=
        [ { id := "sub3", title := "Setup backend API", completed := true }
        , { id := "sub4", title := "Create React components", completed := false }
        , { id := "sub5", title := "Add form validation", completed := false } ]
      tags := ["project", "development"]
      assignee := "Jane Smith" }
  ]

/-- One mutating API call against the tasks collection, with the inputs the
handler draws from outside the store (body, generated id, clock). -/
inductive ApiOp where
  | post (body : CreateTaskBody) (newId : String) (now : Nat)
  | put (tid : String) (body : TaskPatch) (now : Nat)
  | delete (tid : String)
  | postSub (tid : String) (body : SubtaskBody) (newId : String) (now : Nat)
  | putSub (tid sid : String) (body : SubtaskBody) (now : Nat)
  | deleteSub (tid sid : String) (now : Nat)
  deriving Repr

/-- The effect of one API call on the stored collection (the response is
dropped; GET routes do not mutate). -/
def applyOp (tasks : List Task) (op : ApiOp) : List Task :=
  match op with
  | .post body newId now => (postTaskRoute tasks body newId now).2
  | .put tid body now => (putTaskRoute tasks tid body now).2
  | .delete tid => (deleteTaskRoute tasks tid).2
  | .postSub tid body newId now => (postSubtaskRoute tasks tid body newId now).2
  | .putSub tid sid body now => (putSubtaskRoute tasks tid sid body now).2
  | .deleteSub tid sid now => (deleteSubtaskRoute tasks tid sid now).2

/-- Running a sequence of API calls from a collection. -/
def runOps (tasks : List Task) (ops : List ApiOp) : List Task :=
  ops.foldl applyOp tasks

/-- A server state reachable through the API: some sequence of calls from
the seeded initial collection. -/
def Reachable (s : List Task) : Prop :=
  ∃ t0 ops, runOps (initialTasks t0) ops = s

/-! ## Client state layer (`src/context/TaskContext.jsx`) -/

/-- The overdue test shared by `taskStats` (TaskContext.jsx lines 57–60)
and `stats` (TaskBoard.jsx lines 119–122): a due date is present, the
status is not `'completed'`, and the due date is before the current
clock reading. -/
def isOverdue (now : Nat) (t : Task) : Bool :=
  match t.dueDate with
  | none => false
  | some d => if t.status == "completed" then false else decide (d < now)

/-- The memoized statistics of the context provider (TaskContext.jsx
lines 53–65).  `completionRate` is `Math.round((completed / total) * 100)`,
rendered on naturals as round-half-up. -/
structure CtxTaskStats where
  total : Nat
  completed : Nat
  inProgress : Nat
  overdue : Nat
  completionRate : Nat
  deriving Repr, DecidableEq

/-- The memo `taskStats` from TaskContext.jsx; `now` is the `new Date()` the
overdue test reads. -/
def taskStats (tasks : List Task) (now : Nat) : CtxTaskStats :=
  let total := tasks.length
  let completed := (tasks.filter (fun t => t.status == "completed")).length
  let inProgress := (tasks.filter (fun t => t.status == "in-progress")).length
  let overdue := (tasks.filter (isOverdue now)).length
  let completionRate := if total > 0 then (200 * completed + total) / (2 * total) else 0
  { total := total, completed := completed, inProgress := inProgress
    overdue := overdue, completionRate := completionRate }

/-- The slice of provider state `handleUpdateTask` touches. -/
structure ClientState where
  tasks : List Task
  editingTask : Option Task
  error : Option String
  showEditModal : Bool
  deriving Repr, DecidableEq

/-- The optimistic replacement (TaskContext.jsx lines 111–113): the task
whose id matches the task being edited is replaced by the spread merge
`{...task, ...taskData}`, every other task is kept. -/
def optimisticTasks (tasks : List Task) (editingId : String) (taskData : TaskPatch) :
    List Task :=
  tasks.map (fun task => if task.id == editingId then jsMergeTask task taskData else task)

/-- The callback `handleUpdateTask` (TaskContext.jsx lines 103–129) with the network
outcome made explicit.  The first component is the tasks state right
after the optimistic `setTasks(updatedTasks)`, i.e. what the UI shows
while the request is in flight; the second is the state after the
request resolves (`succeeds = true`) or rejects (`succeeds = false`,
which runs `setTasks(previousTasks)` and `setError`). -/
def handleUpdateTask (s : ClientState) (taskData : TaskPatch) (succeeds : Bool) :
    List Task × ClientState :=
  match s.editingTask with
  | none => (s.tasks, s)
  | some editing =>
    let previousTasks := s.tasks
    let updatedTasks := optimisticTasks s.tasks editing.id taskData
    if succeeds then
      (updatedTasks,
        { s with tasks := updatedTasks, showEditModal := false, editingTask := none })
    else
      (updatedTasks,
        { s with tasks := previousTasks, error := some "Failed to update task" })

/-! ## Client derivations (`src/components/TaskBoard.jsx`) -/

/-- The client text-search predicate (TaskBoard.jsx lines 43–46): the term
is a case-insensitive substring of the title, of the description, OR of
some tag. -/
def clientSearchMatch (searchTerm : String) (t : Task) : Bool :=
  jsIncludes (jsToLower t.title) (jsToLower searchTerm) ||
  jsIncludes (jsToLower t.description) (jsToLower searchTerm) ||
  t.tags.any (fun tag => jsIncludes (jsToLower tag) (jsToLower searchTerm))

/-- The filter body of `filteredAndSortedTasks` (TaskBoard.jsx lines
41–55): search (skipped for a falsy term), status (skipped for `'all'`)
and priority (skipped for `'all'`) combined by `&&`. -/
def taskPassesFilters (searchTerm statusFilter priorityFilter : String)
    (t : Task) : Bool :=
  (searchTerm == "" || clientSearchMatch searchTerm t) &&
  (statusFilter == "all" || t.status == statusFilter) &&
  (priorityFilter == "all" || t.priority == priorityFilter)

/-- A comparator key value: JavaScript hands the comparator lower-cased
title strings, order-map numbers (`undefined` for a value outside the
map), parsed dates or timestamps. -/
inductive SortKey where
  | str (s : String)
  | num (n : Nat)
  | undefinedValue
  deriving Repr, DecidableEq

/-- The map `priorityOrder` of TaskBoard.jsx line 62; a priority outside the map
yields `undefined`. -/
def priorityOrder (p : String) : SortKey :=
  if p == "high" then .num 3
  else if p == "medium" then .num 2
  else if p == "low" then .num 1
  else .undefinedValue

/-- The map `statusOrder` of TaskBoard.jsx line 63; a status outside the map
yields `undefined`. -/
def statusOrder (s : String) : SortKey :=
  if s == "todo" then .num 1
  else if s == "in-progress" then .num 2
  else if s == "completed" then .num 3
  else .undefinedValue

/-- The `switch (sortBy)` of TaskBoard.jsx lines 65–85 selecting the
comparator key of a task; `new Date('9999-12-31')` becomes the sentinel
99991231, and the default branch (`createdAt`) covers any other value. -/
def sortValue (sortBy : String) (t : Task) : SortKey :=
  if sortBy == "title" then .str (jsToLower t.title)
  else if sortBy == "priority" then priorityOrder t.priority
  else if sortBy == "dueDate" then .num (t.dueDate.getD 99991231)
  else if sortBy == "status" then statusOrder t.status
  else .num t.createdAt

/-- JavaScript `<` on two comparator keys: lexicographic on strings,
numeric on numbers, and false whenever `undefined` is involved. -/
def keyLt : SortKey → SortKey → Bool
  | .str a, .str b => decide (a < b)
  | .num a, .num b => decide (a < b)
  | _, _ => false

/-- The comparator of TaskBoard.jsx lines 58–90: −1/1/0 from `<` on the
two key values, with the sign flipped for descending order. -/
def taskCompare (sortBy sortOrder : String) (a b : Task) : Int :=
  let aValue := sortValue sortBy a
  let bValue := sortValue sortBy b
  if keyLt aValue bValue then (if sortOrder == "asc" then -1 else 1)
  else if keyLt bValue aValue then (if sortOrder == "asc" then 1 else -1)
  else 0

/-- The memo `filteredAndSortedTasks` (TaskBoard.jsx lines 38–93): filter, then a
stable sort under the comparator (`Array.prototype.sort` is stable). -/
def filteredAndSortedTasks (tasks : List Task)
    (searchTerm statusFilter priorityFilter sortBy sortOrder : String) :
    List Task :=
  (tasks.filter (taskPassesFilters searchTerm statusFilter priorityFilter)).mergeSort
    (fun a b => taskCompare sortBy sortOrder a b ≤ 0)

/-- The three Kanban columns of `tasksByStatus`. -/
structure GroupedTasks where
  todo : List Task
  inProgress : List Task
  completed : List Task
  deriving Repr, DecidableEq

/-- The memo `tasksByStatus` (TaskBoard.jsx lines 96–110): each task is appended to
the column named by its status when such a column exists, and dropped
otherwise. -/
def tasksByStatus (l : List Task) : GroupedTasks :=
  l.foldl
    (fun g t =>
      if t.status == "todo" then { g with todo := g.todo ++ [t] }
      else if t.status == "in-progress" then { g with inProgress := g.inProgress ++ [t] }
      else if t.status == "completed" then { g with completed := g.completed ++ [t] }
      else g)
    ⟨[], [], []⟩

/-- The memoized `stats` of TaskBoard.jsx lines 113–125. -/
structure BoardStats where
  total : Nat
  completed : Nat
  inProgress : Nat
  overdue : Nat
  deriving Repr, DecidableEq

/-- The memo `stats` from TaskBoard.jsx; `now` is the `new Date()` the overdue test
reads. -/
def boardStats (tasks : List Task) (now : Nat) : BoardStats :=
  { total := tasks.length
    completed := (tasks.filter (fun t => t.status == "completed")).length
    inProgress := (tasks.filter (fun t => t.status == "in-progress")).length
    overdue := (tasks.filter (isOverdue now)).length }

/-- Whether a response is a 2xx success. -/
def responseOk {α : Type} : ApiResult α → Bool
  | .ok _ _ => true
  | .err _ => false

/-- Whether one API call against the collection succeeds. -/
def opSucceeds (tasks : List Task) : ApiOp → Bool
  | .post body newId now => responseOk (postTaskRoute tasks body newId now).1
  | .put tid body now => responseOk (putTaskRoute tasks tid body now).1
  | .delete tid => responseOk (deleteTaskRoute tasks tid).1
  | .postSub tid body newId now => responseOk (postSubtaskRoute tasks tid body newId now).1
  | .putSub tid sid body now => responseOk (putSubtaskRoute tasks tid sid body now).1
  | .deleteSub tid sid now => responseOk (deleteSubtaskRoute tasks tid sid now).1

/-- The id of the task a call mutates in place, when there is one: the
task replace-merge and the three subtask calls target the task at `:id`
(`:taskId`); task creation and deletion do not mutate an existing record. -/
def opTarget : ApiOp → Option String
  | .post _ _ _ => none
  | .put tid _ _ => some tid
  | .delete _ => none
  | .postSub tid _ _ _ => some tid
  | .putSub tid _ _ _ => some tid
  | .deleteSub tid _ _ => some tid

/-- The clock reading (`new Date()`) of a call, when the handler reads
one. -/
def opNow : ApiOp → Option Nat
  | .post _ _ now => some now
  | .put _ _ now => some now
  | .delete _ => none
  | .postSub _ _ _ now => some now
  | .putSub _ _ _ now => some now
  | .deleteSub _ _ now => some now

/-- A single PUT that drives task `"1"` out of the three canonical status
values: the shallow merge accepts `status: "archived"` verbatim. -/
def archivedOps : List ApiOp :=
  [ApiOp.put "1" { status := some "archived" } 1]

/-- The server state after `archivedOps`, reachable from the seeded
collection. -/
def archivedState : List Task :=
  runOps (initialTasks 0) archivedOps

/-- A small concrete task used to instantiate theorems: due on 2025-01-20,
not completed, with a tag (`"urgent"`) whose text occurs in neither the
title nor the description. -/
def sampleTask : Task :=
  { id := "t1"
    title := "Alpha"
    description := "Beta"
    status := "todo"
    priority := "low"
    dueDate := some 20250120
    createdAt := 0
    updatedAt := 0
    subtasks := []
    tags := ["urgent"]
    assignee := "" }

/-! ## Helper lemmas -/

/-- What a successful `findIdx?` finds: generalised over the start index. -/
theorem findIdx?_acc_spec {α : Type} (p : α → Bool) :
    ∀ (l : List α) (s i : Nat), List.findIdx? p l s = some i →
      s ≤ i ∧ ∃ a, l[i - s]? = some a ∧ p a = true := by
  intro l
  induction l with
  | nil => intro s i h; simp [List.findIdx?] at h
  | cons x xs ih =>
    intro s i h
    rw [List.findIdx?_cons] at h
    by_cases hp : p x = true
    · simp only [hp, if_true, Option.some.injEq] at h
      subst h
      exact ⟨Nat.le_refl _, x, by simp, hp⟩
    · simp only [hp, if_false] at h
      obtain ⟨hle, a, ha, hpa⟩ := ih (s + 1) i h
      refine ⟨by omega, a, ?_, hpa⟩
      have hstep : i - s = (i - (s + 1)) + 1 := by omega
      rw [hstep]
      simpa using ha

/-- A successful `findIdx?` returns an in-range index whose element
satisfies the predicate. -/
theorem findIdx?_some_getElem {α : Type} (p : α → Bool) (l : List α) (i : Nat)
    (h : l.findIdx? p = some i) : ∃ a, l[i]? = some a ∧ p a = true := by
  have := findIdx?_acc_spec p l 0 i h
  simpa using this.2

/-! ## Claim theorems -/

/-- Claim C1. For every `POST /api/tasks` request whose body contains a
non-empty title, the server responds 201 with a task whose status is
`todo`, whose priority is the supplied value or `medium` when none is
supplied, whose subtasks list is empty, whose tags default to the empty
list and assignee to the empty string, and this task is appended to the
stored collection. -/
theorem postTask_creates_with_defaults
    (tasks : List Task) (body : CreateTaskBody) (newId : String) (now : Nat)
    (s : String) (hs : body.title = some s) (hne : s ≠ "") :
    ∃ t, postTaskRoute tasks body newId now = (.ok 201 t, tasks ++ [t]) ∧
      t.status = "todo" ∧
      t.priority = body.priority.getD "medium" ∧
      t.subtasks = [] ∧
      t.tags = body.tags.getD [] ∧
      t.assignee = body.assignee.getD "" := by
  have hbeq : (s == "") = false := by simpa using hne
  refine ⟨{ id := newId, title := s, description := body.description.getD "",
            status := "todo", priority := body.priority.getD "medium",
            dueDate := body.dueDate.getD none, createdAt := now, updatedAt := now,
            subtasks := [], tags := body.tags.getD [],
            assignee := body.assignee.getD "" },
          ?_, rfl, rfl, rfl, rfl, rfl⟩
  simp [postTaskRoute, jsTruthy, hs, hbeq]

/-- Witness for claim C1 at the concrete payload `{title: "Write spec"}`. -/
theorem postTask_creates_with_defaults_witness :
    ∃ t, postTaskRoute [] { title := some "Write spec" } "42" 3 = (.ok 201 t, [t]) ∧
      t.status = "todo" ∧
      t.priority = "medium" ∧
      t.subtasks = [] ∧
      t.tags = [] ∧
      t.assignee = "" :=
  postTask_creates_with_defaults [] { title := some "Write spec" } "42" 3
    "Write spec" rfl (by decide)

/-- Claim C5. For every `POST /api/tasks` request whose title is missing or
empty, the server responds 400 and the tasks collection is completely
unchanged — no entity is created. -/
theorem postTask_missing_title_400
    (tasks : List Task) (body : CreateTaskBody) (newId : String) (now : Nat)
    (h : body.title = none ∨ body.title = some "") :
    postTaskRoute tasks body newId now = (.err 400, tasks) := by
  rcases h with h | h <;> simp [postTaskRoute, jsTruthy, h]

/-- Witness for claim C5 at a body with no title against the seeded
collection. -/
theorem postTask_missing_title_400_witness :
    postTaskRoute (initialTasks 0) {} "x" 5 = (.err 400, initialTasks 0) :=
  postTask_missing_title_400 (initialTasks 0) {} "x" 5 (Or.inl rfl)

/-- Claim C3. For every existing task id and every request body,
`PUT /api/tasks/:id` replaces the stored task by the shallow merge of the
old record with the body: every top-level field absent from the body keeps
its previous value, every field present (including `id` and `status`)
takes the body's value, `updatedAt` is refreshed unconditionally, and
every other position of the collection is unchanged. -/
theorem putTask_shallow_merge
    (tasks : List Task) (tid : String) (body : TaskPatch) (now : Nat)
    (i : Nat) (old : Task)
    (hi : tasks.findIdx? (fun t => t.id == tid) = some i)
    (hold : tasks[i]? = some old) :
    ∃ u, putTaskRoute tasks tid body now = (.ok 200 u, tasks.set i u) ∧
      u.id = body.id.getD old.id ∧
      u.title = body.title.getD old.title ∧
      u.description = body.description.getD old.description ∧
      u.status = body.status.getD old.status ∧
      u.priority = body.priority.getD old.priority ∧
      u.dueDate = body.dueDate.getD old.dueDate ∧
      u.createdAt = body.createdAt.getD old.createdAt ∧
      u.subtasks = body.subtasks.getD old.subtasks ∧
      u.tags = body.tags.getD old.tags ∧
      u.assignee = body.assignee.getD old.assignee ∧
      u.updatedAt = now ∧
      ∀ j, j ≠ i → (tasks.set i u)[j]? = tasks[j]? := by
  refine ⟨{ jsMergeTask old body with updatedAt := now }, ?_,
          rfl, rfl, rfl, rfl, rfl, rfl, rfl, rfl, rfl, rfl, rfl, ?_⟩
  · simp [putTaskRoute, hi, hold]
  · intro j hj
    exact List.getElem?_set_ne (Ne.symm hj)

/-- Witness for claim C3: a body carrying only `status` against task `"1"`
of the seeded collection. -/
theorem putTask_shallow_merge_witness :
    ∃ u, putTaskRoute (initialTasks 0) "1" { status := some "completed" } 7 =
        (.ok 200 u, (initialTasks 0).set 0 u) ∧
      u.id = "1" ∧
      u.title = "Learn React Hooks" ∧
      u.description = "Study useEffect, useState, and custom hooks" ∧
      u.status = "completed" ∧
      u.priority = "high" ∧
      u.dueDate = some 20250120 ∧
      u.createdAt = 0 ∧
      u.subtasks =
        [ { id := "sub1", title := "Read useEffect documentation", completed := true }
        , { id := "sub2", title := "Practice custom hooks", completed := false } ] ∧
      u.tags = ["react", "learning"] ∧
      u.assignee = "John Doe" ∧
      u.updatedAt = 7 ∧
      ∀ j, j ≠ 0 → ((initialTasks 0).set 0 u)[j]? = (initialTasks 0)[j]? :=
  putTask_shallow_merge (initialTasks 0) "1" { status := some "completed" } 7 0
    ((initialTasks 0).head (by decide)) (by decide) (by decide)

/-- Claim C4. For every tasks collection and every combination of query
parameters, `GET /api/tasks` returns exactly the tasks passing all
supplied filters: a supplied status or priority admits only exact
matches, a supplied search term admits a task iff it is a
case-insensitive substring of the title OR of the description, and
distinct filter dimensions combine by logical AND. -/
theorem getTasks_filters_exactly
    (tasks : List Task) (status priority search : Option String) :
    getTasksRoute tasks status priority search =
      tasks.filter (fun t =>
        (!(jsTruthy status) || t.status == status.getD "") &&
        ((!(jsTruthy priority) || t.priority == priority.getD "") &&
         (!(jsTruthy search) || serverSearchMatch (search.getD "") t))) ∧
    ∀ t, t ∈ getTasksRoute tasks status priority search ↔
      (t ∈ tasks ∧
       (jsTruthy status = true → t.status = status.getD "") ∧
       (jsTruthy priority = true → t.priority = priority.getD "") ∧
       (jsTruthy search = true →
         (jsIncludes (jsToLower t.title) (jsToLower (search.getD "")) = true ∨
          jsIncludes (jsToLower t.description) (jsToLower (search.getD "")) = true))) := by
  have hmain : getTasksRoute tasks status priority search =
      tasks.filter (fun t =>
        (!(jsTruthy status) || t.status == status.getD "") &&
        ((!(jsTruthy priority) || t.priority == priority.getD "") &&
         (!(jsTruthy search) || serverSearchMatch (search.getD "") t))) := by
    cases hst : jsTruthy status <;> cases hpr : jsTruthy priority <;>
      cases hse : jsTruthy search <;>
      simp [getTasksRoute, applyStatusFilter, applyPriorityFilter, applySearchFilter,
        hst, hpr, hse, List.filter_filter, Bool.and_comm, Bool.and_assoc,
        Bool.and_left_comm]
  refine ⟨hmain, fun t => ?_⟩
  rw [hmain, List.mem_filter]
  cases hst : jsTruthy status <;> cases hpr : jsTruthy priority <;>
    cases hse : jsTruthy search <;>
    simp [serverSearchMatch, and_assoc]

/-- Claim C6, counterexample. A state reachable through the API (one PUT whose
body carries `status: "archived"`) contains a task that appears in none of
the three status-filtered results, so their union is not the full
collection as the claim states. -/
theorem statusPartition_counterexample :
    Reachable archivedState ∧
    ∃ t ∈ archivedState,
      t ∉ getTasksRoute archivedState (some "todo") none none ∧
      t ∉ getTasksRoute archivedState (some "in-progress") none none ∧
      t ∉ getTasksRoute archivedState (some "completed") none none :=
  ⟨⟨0, archivedOps, rfl⟩, by decide⟩

/-- Claim C6, amended. The route `GET /api/tasks?status=completed` returns exactly the
subset of tasks whose status equals `completed` (unconditionally), and for
every collection in which each task's status is one of the three canonical
values — which PUT bodies can violate — the three status-filtered results
cover the whole collection with no task in more than one of them. -/
theorem getTasks_status_partition
    (tasks : List Task)
    (h : ∀ t ∈ tasks,
      t.status = "todo" ∨ t.status = "in-progress" ∨ t.status = "completed") :
    getTasksRoute tasks (some "completed") none none =
      tasks.filter (fun t => t.status == "completed") ∧
    (∀ t, t ∈ tasks ↔
      (t ∈ getTasksRoute tasks (some "todo") none none ∨
       t ∈ getTasksRoute tasks (some "in-progress") none none ∨
       t ∈ getTasksRoute tasks (some "completed") none none)) ∧
    (∀ t, ¬(t ∈ getTasksRoute tasks (some "todo") none none ∧
            t ∈ getTasksRoute tasks (some "in-progress") none none)) ∧
    (∀ t, ¬(t ∈ getTasksRoute tasks (some "todo") none none ∧
            t ∈ getTasksRoute tasks (some "completed") none none)) ∧
    (∀ t, ¬(t ∈ getTasksRoute tasks (some "in-progress") none none ∧
            t ∈ getTasksRoute tasks (some "completed") none none)) := by
  have h1 : getTasksRoute tasks (some "todo") none none =
      tasks.filter (fun t => t.status == "todo") := rfl
  have h2 : getTasksRoute tasks (some "in-progress") none none =
      tasks.filter (fun t => t.status == "in-progress") := rfl
  have h3 : getTasksRoute tasks (some "completed") none none =
      tasks.filter (fun t => t.status == "completed") := rfl
  refine ⟨h3, fun t => ?_, fun t => ?_, fun t => ?_, fun t => ?_⟩
  · rw [h1, h2, h3]
    simp only [List.mem_filter, beq_iff_eq]
    constructor
    · intro ht
      rcases h t ht with hs | hs | hs
      · exact Or.inl ⟨ht, hs⟩
      · exact Or.inr (Or.inl ⟨ht, hs⟩)
      · exact Or.inr (Or.inr ⟨ht, hs⟩)
    · rintro (⟨ht, -⟩ | ⟨ht, -⟩ | ⟨ht, -⟩) <;> exact ht
  · rw [h1, h2]
    simp only [List.mem_filter, beq_iff_eq]
    rintro ⟨⟨-, ha⟩, -, hb⟩
    rw [ha] at hb
    exact absurd hb (by decide)
  · rw [h1, h3]
    simp only [List.mem_filter, beq_iff_eq]
    rintro ⟨⟨-, ha⟩, -, hb⟩
    rw [ha] at hb
    exact absurd hb (by decide)
  · rw [h2, h3]
    simp only [List.mem_filter, beq_iff_eq]
    rintro ⟨⟨-, ha⟩, -, hb⟩
    rw [ha] at hb
    exact absurd hb (by decide)

/-- Witness for claim C6 as amended, at the seeded collection, whose statuses
are all canonical. -/
theorem getTasks_status_partition_witness :
    getTasksRoute (initialTasks 0) (some "completed") none none =
      (initialTasks 0).filter (fun t => t.status == "completed") ∧
    (∀ t, t ∈ initialTasks 0 ↔
      (t ∈ getTasksRoute (initialTasks 0) (some "todo") none none ∨
       t ∈ getTasksRoute (initialTasks 0) (some "in-progress") none none ∨
       t ∈ getTasksRoute (initialTasks 0) (some "completed") none none)) ∧
    (∀ t, ¬(t ∈ getTasksRoute (initialTasks 0) (some "todo") none none ∧
            t ∈ getTasksRoute (initialTasks 0) (some "in-progress") none none)) ∧
    (∀ t, ¬(t ∈ getTasksRoute (initialTasks 0) (some "todo") none none ∧
            t ∈ getTasksRoute (initialTasks 0) (some "completed") none none)) ∧
    (∀ t, ¬(t ∈ getTasksRoute (initialTasks 0) (some "in-progress") none none ∧
            t ∈ getTasksRoute (initialTasks 0) (some "completed") none none)) :=
  getTasks_status_partition (initialTasks 0) (by decide)

/-- Claim C7. Every mutation of a task or of one of its subtasks that
succeeds through the endpoint layer (task replace-merge, subtask create,
subtask replace-merge, subtask delete) stores, at the index of the parent
task, a record whose `updatedAt` is the call's clock reading. -/
theorem mutations_refresh_updatedAt
    (tasks : List Task) (op : ApiOp) (tid : String) (now : Nat)
    (htgt : opTarget op = some tid) (hnow : opNow op = some now)
    (hok : opSucceeds tasks op = true) :
    ∃ i u, tasks.findIdx? (fun t => t.id == tid) = some i ∧
      applyOp tasks op = tasks.set i u ∧ u.updatedAt = now := by
  cases op with
  | post body newId n => simp [opTarget] at htgt
  | delete tid' => simp [opTarget] at htgt
  | put tid' body n =>
    simp only [opTarget, Option.some.injEq] at htgt
    simp only [opNow, Option.some.injEq] at hnow
    subst htgt; subst hnow
    cases hfind : tasks.findIdx? (fun t => t.id == tid') with
    | none => simp [opSucceeds, putTaskRoute, hfind, responseOk] at hok
    | some i =>
      cases hold : tasks[i]? with
      | none => simp [opSucceeds, putTaskRoute, hfind, hold, responseOk] at hok
      | some old =>
        exact ⟨i, { jsMergeTask old body with updatedAt := n }, rfl,
          by simp [applyOp, putTaskRoute, hfind, hold], rfl⟩
  | postSub tid' body newId n =>
    simp only [opTarget, Option.some.injEq] at htgt
    simp only [opNow, Option.some.injEq] at hnow
    subst htgt; subst hnow
    cases hfind : tasks.findIdx? (fun t => t.id == tid') with
    | none => simp [opSucceeds, postSubtaskRoute, hfind, responseOk] at hok
    | some i =>
      cases hold : tasks[i]? with
      | none => simp [opSucceeds, postSubtaskRoute, hfind, hold, responseOk] at hok
      | some task =>
        cases htitle : jsTruthy body.title with
        | false =>
          simp [opSucceeds, postSubtaskRoute, hfind, hold, htitle, responseOk] at hok
        | true =>
          exact ⟨i,
            { task with
                subtasks := task.subtasks ++
                  [{ id := newId, title := body.title.getD "", completed := false }]
                updatedAt := n },
            rfl, by simp [applyOp, postSubtaskRoute, hfind, hold, htitle], rfl⟩
  | putSub tid' sid body n =>
    simp only [opTarget, Option.some.injEq] at htgt
    simp only [opNow, Option.some.injEq] at hnow
    subst htgt; subst hnow
    cases hfind : tasks.findIdx? (fun t => t.id == tid') with
    | none => simp [opSucceeds, putSubtaskRoute, hfind, responseOk] at hok
    | some i =>
      cases hold : tasks[i]? with
      | none => simp [opSucceeds, putSubtaskRoute, hfind, hold, responseOk] at hok
      | some task =>
        cases hsub : task.subtasks.findIdx? (fun st => st.id == sid) with
        | none =>
          simp [opSucceeds, putSubtaskRoute, hfind, hold, hsub, responseOk] at hok
        | some j =>
          cases holdSub : task.subtasks[j]? with
          | none =>
            simp [opSucceeds, putSubtaskRoute, hfind, hold, hsub, holdSub,
              responseOk] at hok
          | some oldSub =>
            exact ⟨i,
              { task with
                  subtasks := task.subtasks.set j (jsMergeSubtask oldSub body)
                  updatedAt := n },
              rfl,
              by simp [applyOp, putSubtaskRoute, hfind, hold, hsub, holdSub], rfl⟩
  | deleteSub tid' sid n =>
    simp only [opTarget, Option.some.injEq] at htgt
    simp only [opNow, Option.some.injEq] at hnow
    subst htgt; subst hnow
    cases hfind : tasks.findIdx? (fun t => t.id == tid') with
    | none => simp [opSucceeds, deleteSubtaskRoute, hfind, responseOk] at hok
    | some i =>
      cases hold : tasks[i]? with
      | none => simp [opSucceeds, deleteSubtaskRoute, hfind, hold, responseOk] at hok
      | some task =>
        cases hsub : task.subtasks.findIdx? (fun st => st.id == sid) with
        | none =>
          simp [opSucceeds, deleteSubtaskRoute, hfind, hold, hsub, responseOk] at hok
        | some j =>
          exact ⟨i,
            { task with subtasks := task.subtasks.eraseIdx j, updatedAt := n },
            rfl,
            by simp [applyOp, deleteSubtaskRoute, hfind, hold, hsub], rfl⟩

/-- Witness for claim C7: a successful task replace-merge against task `"1"`
of the seeded collection at clock reading 9. -/
theorem mutations_refresh_updatedAt_witness :
    ∃ i u, (initialTasks 0).findIdx? (fun t => t.id == "1") = some i ∧
      applyOp (initialTasks 0) (ApiOp.put "1" { status := some "completed" } 9) =
        (initialTasks 0).set i u ∧
      u.updatedAt = 9 :=
  mutations_refresh_updatedAt (initialTasks 0)
    (ApiOp.put "1" { status := some "completed" } 9) "1" 9 rfl rfl (by decide)

/-- Claim C2. For the optimistic task-update mutation: the tasks state shown
while the request is in flight replaces the edited task by the shallow
merge of the old task with the submitted data and leaves every other
position unchanged; on failure the state is reset exactly to the snapshot
captured before the request and an error is surfaced; on success the final
state is exactly the optimistic one, with no further reconciliation. -/
theorem handleUpdateTask_optimistic_rollback
    (s : ClientState) (taskData : TaskPatch) (succeeds : Bool) (e : Task)
    (he : s.editingTask = some e) :
    (handleUpdateTask s taskData succeeds).1 =
      optimisticTasks s.tasks e.id taskData ∧
    (∀ j : Nat, ((handleUpdateTask s taskData succeeds).1)[j]? =
      (s.tasks[j]?).map
        (fun t => if t.id == e.id then jsMergeTask t taskData else t)) ∧
    (succeeds = false →
      (handleUpdateTask s taskData succeeds).2.tasks = s.tasks ∧
      ((handleUpdateTask s taskData succeeds).2.error).isSome = true) ∧
    (succeeds = true →
      (handleUpdateTask s taskData succeeds).2.tasks =
        (handleUpdateTask s taskData succeeds).1) := by
  cases succeeds <;>
    simp [handleUpdateTask, he, optimisticTasks, List.getElem?_map]

/-- Witness for claim C2: a failing status change on a one-task state. -/
theorem handleUpdateTask_optimistic_rollback_witness :
    (handleUpdateTask ⟨[sampleTask], some sampleTask, none, true⟩
        { status := some "in-progress" } false).1 =
      optimisticTasks [sampleTask] sampleTask.id { status := some "in-progress" } ∧
    (∀ j : Nat, ((handleUpdateTask ⟨[sampleTask], some sampleTask, none, true⟩
        { status := some "in-progress" } false).1)[j]? =
      (([sampleTask] : List Task)[j]?).map
        (fun t => if t.id == sampleTask.id
          then jsMergeTask t { status := some "in-progress" } else t)) ∧
    (false = false →
      (handleUpdateTask ⟨[sampleTask], some sampleTask, none, true⟩
        { status := some "in-progress" } false).2.tasks = [sampleTask] ∧
      ((handleUpdateTask ⟨[sampleTask], some sampleTask, none, true⟩
        { status := some "in-progress" } false).2.error).isSome = true) ∧
    (false = true →
      (handleUpdateTask ⟨[sampleTask], some sampleTask, none, true⟩
        { status := some "in-progress" } false).2.tasks =
      (handleUpdateTask ⟨[sampleTask], some sampleTask, none, true⟩
        { status := some "in-progress" } false).1) :=
  handleUpdateTask_optimistic_rollback ⟨[sampleTask], some sampleTask, none, true⟩
    { status := some "in-progress" } false sampleTask rfl

/-- Claim C8, counterexample. With an identical task collection and identical
selections, the statistics differ between two clock readings on either
side of a task's due date: the derivations do depend on an input other
than the collection and the selections, namely the current time read by
the overdue test. -/
theorem derivations_clock_counterexample :
    taskStats [sampleTask] 20250119 ≠ taskStats [sampleTask] 20250121 ∧
    boardStats [sampleTask] 20250119 ≠ boardStats [sampleTask] 20250121 := by
  decide

/-- Claim C8, amended. The client derivations are pure functions of the task
collection, the filter/sort selections, and the clock reading the overdue
test performs: two evaluations with identical collections, identical
selections and an identical clock reading produce identical statistics,
filtered/sorted list and per-status grouping. -/
theorem derivations_pure
    (tasks1 tasks2 : List Task)
    (search1 statusF1 priorityF1 sortBy1 sortOrder1 : String)
    (search2 statusF2 priorityF2 sortBy2 sortOrder2 : String)
    (now1 now2 : Nat)
    (htasks : tasks1 = tasks2)
    (hsearch : search1 = search2) (hstatus : statusF1 = statusF2)
    (hpriority : priorityF1 = priorityF2) (hsortBy : sortBy1 = sortBy2)
    (hsortOrder : sortOrder1 = sortOrder2) (hnow : now1 = now2) :
    taskStats tasks1 now1 = taskStats tasks2 now2 ∧
    boardStats tasks1 now1 = boardStats tasks2 now2 ∧
    filteredAndSortedTasks tasks1 search1 statusF1 priorityF1 sortBy1 sortOrder1 =
      filteredAndSortedTasks tasks2 search2 statusF2 priorityF2 sortBy2 sortOrder2 ∧
    tasksByStatus
        (filteredAndSortedTasks tasks1 search1 statusF1 priorityF1 sortBy1 sortOrder1) =
      tasksByStatus
        (filteredAndSortedTasks tasks2 search2 statusF2 priorityF2 sortBy2 sortOrder2) := by
  subst htasks; subst hsearch; subst hstatus; subst hpriority
  subst hsortBy; subst hsortOrder; subst hnow
  exact ⟨rfl, rfl, rfl, rfl⟩

/-- Witness for claim C8 as amended, at concrete inputs. -/
theorem derivations_pure_witness :
    taskStats [sampleTask] 20250121 = taskStats [sampleTask] 20250121 ∧
    boardStats [sampleTask] 20250121 = boardStats [sampleTask] 20250121 ∧
    filteredAndSortedTasks [sampleTask] "" "all" "all" "createdAt" "desc" =
      filteredAndSortedTasks [sampleTask] "" "all" "all" "createdAt" "desc" ∧
    tasksByStatus (filteredAndSortedTasks [sampleTask] "" "all" "all" "createdAt" "desc") =
      tasksByStatus (filteredAndSortedTasks [sampleTask] "" "all" "all" "createdAt" "desc") :=
  derivations_pure [sampleTask] [sampleTask] "" "all" "all" "createdAt" "desc"
    "" "all" "all" "createdAt" "desc" 20250121 20250121
    rfl rfl rfl rfl rfl rfl rfl

/-- Claim C9. For every `POST /api/tasks/:id/subtasks` request on an existing
task with a non-empty title, the created subtask has `completed = false`
and the freshly generated id, and only the body's `title` field is used:
any second body with the same title — whatever its `completed`, `id` or
other fields — produces the identical response and identical stored
collection. -/
theorem postSubtask_only_title
    (tasks : List Task) (tid newId : String) (now : Nat) (b1 b2 : SubtaskBody)
    (i : Nat)
    (hi : tasks.findIdx? (fun t => t.id == tid) = some i)
    (htitle : jsTruthy b1.title = true)
    (hsame : b1.title = b2.title) :
    ∃ st tasks2,
      postSubtaskRoute tasks tid b1 newId now = (.ok 201 st, tasks2) ∧
      st.completed = false ∧
      st.id = newId ∧
      postSubtaskRoute tasks tid b2 newId now = (.ok 201 st, tasks2) := by
  obtain ⟨task, htask, -⟩ := findIdx?_some_getElem _ tasks i hi
  refine ⟨{ id := newId, title := b1.title.getD "", completed := false },
          tasks.set i
            { task with
                subtasks := task.subtasks ++
                  [{ id := newId, title := b1.title.getD "", completed := false }]
                updatedAt := now },
          ?_, rfl, rfl, ?_⟩
  · simp [postSubtaskRoute, hi, htask, htitle]
  · simp [postSubtaskRoute, hi, htask, ← hsame, htitle]

/-- Witness for claim C9: two bodies sharing the title `"New"`, the second
also smuggling `completed: true` and an `id`, against task `"2"` of the
seeded collection. -/
theorem postSubtask_only_title_witness :
    ∃ st tasks2,
      postSubtaskRoute (initialTasks 0) "2" { title := some "New" } "n1" 3 =
        (.ok 201 st, tasks2) ∧
      st.completed = false ∧
      st.id = "n1" ∧
      postSubtaskRoute (initialTasks 0) "2"
          { title := some "New", completed := some true, id := some "evil" } "n1" 3 =
        (.ok 201 st, tasks2) :=
  postSubtask_only_title (initialTasks 0) "2" "n1" 3
    { title := some "New" }
    { title := some "New", completed := some true, id := some "evil" }
    1 (by decide) (by decide) rfl

/-- Claim C10. In the client's filtered view, a task whose title and
description both lack the search term is still included when the term is
a case-insensitive substring of one of its tags (and the status/priority
filters pass), whereas the server's `GET /api/tasks` search, which matches
title OR description only, excludes that task. -/
theorem clientSearch_includes_tag_matches
    (tasks : List Task) (t : Task)
    (searchTerm statusFilter priorityFilter sortBy sortOrder : String)
    (hmem : t ∈ tasks)
    (htag : t.tags.any (fun tag => jsIncludes (jsToLower tag) (jsToLower searchTerm)) = true)
    (htitle : jsIncludes (jsToLower t.title) (jsToLower searchTerm) = false)
    (hdesc : jsIncludes (jsToLower t.description) (jsToLower searchTerm) = false)
    (hstatus : statusFilter = "all" ∨ t.status = statusFilter)
    (hpriority : priorityFilter = "all" ∨ t.priority = priorityFilter)
    (hterm : searchTerm ≠ "") :
    t ∈ filteredAndSortedTasks tasks searchTerm statusFilter priorityFilter
        sortBy sortOrder ∧
    t ∉ getTasksRoute tasks none none (some searchTerm) := by
  have hbeq : (searchTerm == "") = false := by simpa using hterm
  constructor
  · rw [filteredAndSortedTasks, List.mem_mergeSort, List.mem_filter]
    refine ⟨hmem, ?_⟩
    have hsearchB : (searchTerm == "" || clientSearchMatch searchTerm t) = true := by
      simp [clientSearchMatch, htag]
    have hstB : (statusFilter == "all" || t.status == statusFilter) = true := by
      rcases hstatus with h | h <;> simp [h]
    have hprB : (priorityFilter == "all" || t.priority == priorityFilter) = true := by
      rcases hpriority with h | h <;> simp [h]
    simp [taskPassesFilters, hsearchB, hstB, hprB]
  · intro hmemS
    have hroute : getTasksRoute tasks none none (some searchTerm) =
        tasks.filter (serverSearchMatch searchTerm) := by
      simp [getTasksRoute, applyStatusFilter, applyPriorityFilter,
        applySearchFilter, jsTruthy, hbeq]
    rw [hroute, List.mem_filter] at hmemS
    have hm := hmemS.2
    simp [serverSearchMatch, htitle, hdesc] at hm

/-- Witness for claim C10: the task titled `"Alpha"`, described `"Beta"`,
tagged `"urgent"`, under the search term `"urg"`. -/
theorem clientSearch_includes_tag_matches_witness :
    sampleTask ∈ filteredAndSortedTasks [sampleTask] "urg" "all" "all"
        "createdAt" "desc" ∧
    sampleTask ∉ getTasksRoute [sampleTask] none none (some "urg") :=
  clientSearch_includes_tag_matches [sampleTask] sampleTask "urg" "all" "all"
    "createdAt" "desc" (by decide) (by decide) (by decide) (by decide)
    (Or.inl rfl) (Or.inl rfl) (by decide)

end TaskManager
